import Mathlib

/-!
Shallow embedding of the google-docs-mcp-server repository:
  * `src/google-docs-client.ts` — the `GoogleDocsClient` class (credential
    resolution at construction, nine operations over the Docs/Drive APIs);
  * `src/index.ts` — the MCP tool registry/dispatcher (`setupToolHandlers`);
  * `src/test-connection.ts` — the connectivity-check CLI (`main`).

JavaScript optional string values are modelled as `Option String`, with the
usual JS notion of truthiness (`undefined` and the empty string are falsy).
Remote calls are modelled by passing each call's outcome (`Except ApiError _`)
as an explicit oracle argument; the `try`/`catch` at each operation boundary
becomes a `match` on the composed `Except` value.
-/

namespace GDocs

/-- JS truthiness of an optional string: `undefined` and `""` are falsy. -/
def truthy : Option String → Bool
  | some s => s ≠ ""
  | none => false

/-- JS `a || b` on optional strings: yields `a` when `a` is truthy, else `b`. -/
def jsOr (a b : Option String) : Option String :=
  if truthy a then a else b

/-- JS `x || d` on an optional number (with `undefined` and `0` falsy). -/
def jsOrNat : Option Nat → Nat → Nat
  | some n, d => if n = 0 then d else n
  | none, d => d

/-- JS template-literal interpolation of a possibly-`undefined` string. -/
def jsInterp : Option String → String
  | some s => s
  | none => "undefined"

/-- The authentication value stored in `this.auth` after construction.
`noAuth` stands for the (unreachable) case in which none of the three
`if`/`else if` branches of the constructor assigns `this.auth`. -/
inductive AuthStrategy where
  | apiKey (key : String)
  | serviceAccount (keyFile : String)
  | oauth2 (clientId clientSecret refreshToken : String)
  | noAuth
deriving DecidableEq, Repr

/-- The configuration errors thrown by the `GoogleDocsClient` constructor. -/
inductive ConfigError where
  | missingProjectId
  | noCredentials
  | serviceAccountFileNotFound (path : String)
deriving DecidableEq, Repr

/-- The `Error` message carried by each construction-time throw. -/
def ConfigError.message : ConfigError → String
  | .missingProjectId =>
      "GOOGLE_CLOUD_PROJECT_ID environment variable or projectId parameter is required"
  | .noCredentials =>
      "Either GOOGLE_API_KEY, GOOGLE_APPLICATION_CREDENTIALS, or OAuth credentials must be provided"
  | .serviceAccountFileNotFound p => "Service account key file not found at: " ++ p

/-- The constructor's `options` argument (all fields optional). -/
structure ClientOptions where
  serviceAccountPath : Option String := none
  apiKey : Option String := none
  projectId : Option String := none
  oauthClientId : Option String := none
  oauthClientSecret : Option String := none
  oauthRefreshToken : Option String := none
deriving DecidableEq, Repr

/-- The environment variables consulted by the constructor and the CLI. -/
structure Env where
  GOOGLE_CLOUD_PROJECT_ID : Option String := none
  GOOGLE_API_KEY : Option String := none
  GOOGLE_APPLICATION_CREDENTIALS : Option String := none
  GOOGLE_OAUTH_CLIENT_ID : Option String := none
  GOOGLE_OAUTH_CLIENT_SECRET : Option String := none
  GOOGLE_OAUTH_REFRESH_TOKEN : Option String := none
deriving DecidableEq, Repr

/-- The state of a constructed `GoogleDocsClient` relevant to its behaviour:
the resolved project id and the selected authentication strategy. -/
structure GoogleDocsClient where
  projectId : String
  auth : AuthStrategy
deriving DecidableEq, Repr

/-- The `GoogleDocsClient` constructor.  `fsExists` models
`fs.existsSync`.  Mirrors the source order: project-id check first, then the
no-credentials guard, then the `apiKey` / `serviceAccountPath` / OAuth2
`if`/`else if` chain (the trailing case where no branch assigns `this.auth`
is represented by `AuthStrategy.noAuth`). -/
def mkClient (options : ClientOptions) (env : Env) (fsExists : String → Bool) :
    Except ConfigError GoogleDocsClient :=
  let projectId := (jsOr options.projectId env.GOOGLE_CLOUD_PROJECT_ID).getD ""
  if projectId = "" then .error .missingProjectId
  else
    let apiKey := jsOr options.apiKey env.GOOGLE_API_KEY
    let serviceAccountPath := jsOr options.serviceAccountPath env.GOOGLE_APPLICATION_CREDENTIALS
    let oauthClientId := jsOr options.oauthClientId env.GOOGLE_OAUTH_CLIENT_ID
    let oauthClientSecret := jsOr options.oauthClientSecret env.GOOGLE_OAUTH_CLIENT_SECRET
    let oauthRefreshToken := jsOr options.oauthRefreshToken env.GOOGLE_OAUTH_REFRESH_TOKEN
    if ¬ (truthy apiKey ∨ truthy serviceAccountPath ∨
          (truthy oauthClientId ∧ truthy oauthClientSecret ∧ truthy oauthRefreshToken)) then
      .error .noCredentials
    else if truthy apiKey then
      .ok { projectId, auth := .apiKey (apiKey.getD "") }
    else if truthy serviceAccountPath then
      let p := serviceAccountPath.getD ""
      if ¬ fsExists p then .error (.serviceAccountFileNotFound p)
      else .ok { projectId, auth := .serviceAccount p }
    else if truthy oauthClientId ∧ truthy oauthClientSecret ∧ truthy oauthRefreshToken then
      .ok { projectId,
            auth := .oauth2 (oauthClientId.getD "") (oauthClientSecret.getD "")
              (oauthRefreshToken.getD "") }
    else
      .ok { projectId, auth := .noAuth }

/-- `getAuthType`: names the active credential branch. -/
def GoogleDocsClient.getAuthType (c : GoogleDocsClient) : String :=
  match c.auth with
  | .apiKey _ => "API Key"
  | .serviceAccount _ => "Service Account"
  | .oauth2 _ _ _ => "OAuth2"
  | .noAuth => "Unknown"

/-! ### The remote document model and request shapes -/

/-- One structural element of a document body; only `endIndex` is inspected
by the client (it may be absent on the wire). -/
structure StructuralElement where
  endIndex : Option Nat := none
deriving DecidableEq, Repr

/-- A document body: its `content` array may be absent. -/
structure DocBody where
  content : Option (List StructuralElement) := none
deriving DecidableEq, Repr

/-- The document object returned by `documents.get` (`response.data`). -/
structure DocData where
  body : Option DocBody := none
deriving DecidableEq, Repr

/-- The two request kinds this client ever places in a `batchUpdate`. -/
inductive Request where
  | deleteContentRange (startIndex endIndex : Nat)
  | insertText (index : Nat) (text : String)
deriving DecidableEq, Repr

/-- `convertContentToRequests`: one whole-text insert at index 1. -/
def convertContentToRequests (content : String) : List Request :=
  [.insertText 1 content]

/-- An error thrown by a remote call (`error.message`, `error.code`,
`error.details`, `error.stack` are the fields the client reads). -/
inductive ErrCode where
  | num (n : Int)
  | str (s : String)
deriving DecidableEq, Repr

/-- A thrown remote-call error. -/
structure ApiError where
  message : String
  code : Option ErrCode := none
  details : Option String := none
  stack : Option String := none
deriving DecidableEq, Repr

/-- JS `error.code || badge` where `0` and `""` are falsy. -/
def jsOrCode (c : Option ErrCode) (d : ErrCode) : ErrCode :=
  match c with
  | some (.num n) => if n = 0 then d else .num n
  | some (.str s) => if s = "" then d else .str s
  | none => d

/-- A file's metadata as returned inside `files.list` responses. -/
structure FileMeta where
  id : Option String := none
  name : Option String := none
deriving DecidableEq, Repr

/-- The `response.data` of a `files.list` call. -/
structure ListFilesResponse where
  files : Option (List FileMeta) := none
  nextPageToken : Option String := none
deriving DecidableEq, Repr

/-- The parameters the client sends on a `files.list` call. -/
structure ListFilesCall where
  pageSize : Option Nat := none
  pageToken : Option String := none
  q : String
  fields : String
deriving DecidableEq, Repr

/-- A single-quote character, for building Drive query strings. -/
def sq : String := String.singleton (Char.ofNat 39)

/-- The Drive mime-type filter shared by `list`, `search` and
`verifyConnection`. -/
def docMimeFilter : String := "mimeType=" ++ sq ++ "application/vnd.google-apps.document" ++ sq

/-! ### The nine operations

Each operation's `try` body is a `do` block over `Except ApiError`; the
surrounding `try`/`catch` is the final `match` that converts a thrown error
into the operation's error shape. -/

/-- The `response.data` of the Drive `files.create` call. -/
structure DriveFile where
  id : Option String := none
deriving DecidableEq, Repr

/-- The success payload of `createDocument`. -/
structure CreatePayload where
  documentId : Option String
  title : String
  url : String
  document : DocData
deriving DecidableEq, Repr

/-- Result of `createDocument`: the success object or `\x7berror: message\x7d`. -/
inductive CreateResult where
  | success (p : CreatePayload)
  | errorResult (msg : String)
deriving DecidableEq, Repr

/-- The `try` body of `createDocument`: Drive create, conditional content
batch-update, final `documents.get`. -/
def createDocumentBody (title : String) (content : Option String)
    (createResp : Except ApiError DriveFile)
    (batchResp : List Request → Except ApiError Unit)
    (getResp : String → Except ApiError DocData) : Except ApiError CreatePayload := do
  let drive ← createResp
  let documentId := drive.id
  if truthy content && truthy documentId then
    let requests := convertContentToRequests (content.getD "")
    if requests.length > 0 then
      let _ ← batchResp requests
  let document ← getResp (documentId.getD "")
  pure { documentId, title,
         url := "https://docs.google.com/document/d/" ++ jsInterp documentId ++ "/edit",
         document }

/-- `createDocument` with its boundary `try`/`catch`. -/
def createDocument (title : String) (content : Option String)
    (createResp : Except ApiError DriveFile)
    (batchResp : List Request → Except ApiError Unit)
    (getResp : String → Except ApiError DocData) : CreateResult :=
  match createDocumentBody title content createResp batchResp getResp with
  | .ok p => .success p
  | .error e => .errorResult e.message

/-- The content-inserting batch-update calls `createDocument` issues, given
the `content` argument and the id returned by the Drive create call. -/
def createDocumentBatches (content : Option String) (documentId : Option String) :
    List (List Request) :=
  if truthy content && truthy documentId then
    let requests := convertContentToRequests (content.getD "")
    if requests.length > 0 then [requests] else []
  else []

/-- Result of `getDocument`. -/
inductive GetResult where
  | ok (d : DocData)
  | errorResult (msg : String)
deriving DecidableEq, Repr

/-- `getDocument`. -/
def getDocument (resp : Except ApiError DocData) : GetResult :=
  match resp with
  | .ok d => .ok d
  | .error e => .errorResult e.message

/-- The delete-range batch `updateDocument` issues under `replaceAll`, given
the freshly fetched document: present exactly when `body?.content` exists and
holds more than one element.  The range's end is the last element's
`endIndex || 1`, minus one. -/
def deleteBatchFor (d : DocData) : Option (List Request) :=
  match d.body with
  | some b =>
      match b.content with
      | some l =>
          if l.length > 1 then
            some [.deleteContentRange 1
              (jsOrNat (l.getLast?.bind StructuralElement.endIndex) 1 - 1)]
          else none
      | none => none
  | none => none

/-- The `try` body of `updateDocument`: optional fetch+clear, then the
content insert, then the final fetch.  `getResp1` answers the first
`documents.get`, `batchResp` each `batchUpdate`, `getResp2` the last get. -/
def updateDocumentBody (content : String) (replaceAll : Bool)
    (getResp1 : Except ApiError DocData)
    (batchResp : List Request → Except ApiError Unit)
    (getResp2 : Except ApiError DocData) : Except ApiError DocData := do
  if replaceAll then
    let currentDoc ← getResp1
    match deleteBatchFor currentDoc with
    | some reqs => let _ ← batchResp reqs
    | none => pure ()
  let requests := convertContentToRequests content
  if requests.length > 0 then
    let _ ← batchResp requests
  let document ← getResp2
  pure document

/-- Result of `updateDocument`. -/
inductive UpdateResult where
  | ok (document : DocData)
  | errorResult (msg : String)
deriving DecidableEq, Repr

/-- `updateDocument` with its boundary `try`/`catch` (`replaceAll` defaults
to `false` at the TS signature; the dispatcher may pass it explicitly). -/
def updateDocument (content : String) (replaceAll : Bool)
    (getResp1 : Except ApiError DocData)
    (batchResp : List Request → Except ApiError Unit)
    (getResp2 : Except ApiError DocData) : UpdateResult :=
  match updateDocumentBody content replaceAll getResp1 batchResp getResp2 with
  | .ok d => .ok d
  | .error e => .errorResult e.message

/-- The sequence of `batchUpdate` payloads `updateDocument` issues when all
remote calls succeed and the first fetch returns `currentDoc`. -/
def updateDocumentCalls (currentDoc : DocData) (content : String) (replaceAll : Bool) :
    List (List Request) :=
  (if replaceAll then (deleteBatchFor currentDoc).toList else []) ++
  (let requests := convertContentToRequests content
   if requests.length > 0 then [requests] else [])

/-- Result of `listDocuments` / `searchDocuments`. -/
inductive ListResult where
  | ok (documents : Option (List FileMeta)) (nextPageToken : Option String)
  | errorResult (msg : String)
deriving DecidableEq, Repr

/-- The `files.list` parameters sent by `listDocuments` (`pageSize`
defaults to 10 when the argument is absent). -/
def listDocumentsCall (pageSize : Option Nat) (pageToken : Option String) : ListFilesCall :=
  { pageSize := some (pageSize.getD 10), pageToken, q := docMimeFilter,
    fields := "nextPageToken, files(id, name, createdTime, modifiedTime, webViewLink)" }

/-- `listDocuments`. -/
def listDocuments (resp : Except ApiError ListFilesResponse) : ListResult :=
  match resp with
  | .ok r => .ok r.files r.nextPageToken
  | .error e => .errorResult e.message

/-- The Drive search filter built by `searchDocuments`: the raw `query`
string is spliced twice into the quoted `contains` clauses. -/
def searchFilter (query : String) : String :=
  docMimeFilter ++ " and (name contains " ++ sq ++ query ++ sq ++
    " or fullText contains " ++ sq ++ query ++ sq ++ ")"

/-- The `files.list` parameters sent by `searchDocuments`. -/
def searchDocumentsCall (query : String) (pageSize : Option Nat)
    (pageToken : Option String) : ListFilesCall :=
  { pageSize := some (pageSize.getD 10), pageToken, q := searchFilter query,
    fields := "nextPageToken, files(id, name, createdTime, modifiedTime, webViewLink)" }

/-- `searchDocuments` (result shaping is identical to `listDocuments`). -/
def searchDocuments (resp : Except ApiError ListFilesResponse) : ListResult :=
  match resp with
  | .ok r => .ok r.files r.nextPageToken
  | .error e => .errorResult e.message

/-- Result of `deleteDocument`: `success:true` with a message, or
`success:false` with the error message. -/
inductive DeleteResult where
  | ok (documentId message : String)
  | failure (msg : String)
deriving DecidableEq, Repr

/-- `deleteDocument`. -/
def deleteDocument (documentId : String) (resp : Except ApiError Unit) : DeleteResult :=
  match resp with
  | .ok _ => .ok documentId ("Document " ++ documentId ++ " successfully deleted")
  | .error e => .failure e.message

/-- The base64 alphabet used by `Buffer.toString` with base64 encoding. -/
def b64Alphabet : List Char :=
  "ABCDEFGHIJKLMNOPQRSTUVWXYZabcdefghijklmnopqrstuvwxyz0123456789+/".toList

/-- The base64 digit for a 6-bit value. -/
def b64Char (n : Nat) : Char := b64Alphabet.getD (n % 64) (Char.ofNat 65)

/-- Standard base64 with padding, as produced by `Buffer.toString` for a
byte buffer (bytes taken mod 256). -/
def base64Encode : List Nat → String
  | [] => ""
  | [a] =>
      let a := a % 256
      String.mk [b64Char (a / 4), b64Char (a % 4 * 16)] ++ "=="
  | [a, b] =>
      let a := a % 256
      let b := b % 256
      String.mk [b64Char (a / 4), b64Char (a % 4 * 16 + b / 16), b64Char (b % 16 * 4)] ++ "="
  | a :: b :: c :: rest =>
      let a := a % 256
      let b := b % 256
      let c := c % 256
      String.mk [b64Char (a / 4), b64Char (a % 4 * 16 + b / 16),
        b64Char (b % 16 * 4 + c / 64), b64Char (c % 64)] ++ base64Encode rest

/-- Result of `exportDocument`. -/
inductive ExportResult where
  | ok (documentId mimeType content : String)
  | errorResult (msg : String)
deriving DecidableEq, Repr

/-- `exportDocument` (`mimeType` defaults to PDF); the exported bytes are
re-encoded in base64. -/
def exportDocument (documentId : String) (mimeType : Option String)
    (resp : Except ApiError (List Nat)) : ExportResult :=
  let mt := mimeType.getD "application/pdf"
  match resp with
  | .ok bytes => .ok documentId mt (base64Encode bytes)
  | .error e => .errorResult e.message

/-- The permission object returned by `permissions.create`. -/
structure Permission where
  permType : String := "user"
  role : String := "reader"
  emailAddress : String := ""
deriving DecidableEq, Repr

/-- Result of `shareDocument`. -/
inductive ShareResult where
  | ok (documentId : String) (permission : Permission)
  | failure (msg : String)
deriving DecidableEq, Repr

/-- The `permissions.create` request body sent by `shareDocument`:
a user-type grant with `role` defaulting to reader. -/
def sharePermissionRequest (emailAddress : String) (role : Option String) : Permission :=
  { permType := "user", role := role.getD "reader", emailAddress }

/-- `shareDocument`. -/
def shareDocument (documentId : String) (resp : Except ApiError Permission) : ShareResult :=
  match resp with
  | .ok p => .ok documentId p
  | .error e => .failure e.message

/-! ### verifyConnection -/

/-- The `details` object of a successful `verifyConnection`. -/
structure ConnDetails where
  authType : String
  apiVersion : String
  documentCount : Nat
deriving DecidableEq, Repr

/-- The `error` object of a failed `verifyConnection`: `code` falls back to
the `UNKNOWN_ERROR` badge, `details` to the thrown error's stack. -/
structure ConnError where
  message : String
  code : ErrCode
  details : Option String
deriving DecidableEq, Repr

/-- The object `verifyConnection` returns (success and failure share the
`connected`/`projectId`/`timestamp` spine). -/
structure VerifyResult where
  connected : Bool
  projectId : String
  timestamp : String
  details : Option ConnDetails := none
  error : Option ConnError := none
deriving DecidableEq, Repr

/-- The single-item `files.list` probe sent by `verifyConnection`. -/
def verifyConnectionCall : ListFilesCall :=
  { pageSize := some 1, q := docMimeFilter, fields := "files(id, name)" }

/-- `verifyConnection`: `timestamp` stands for `new Date().toISOString()`,
`listResult` for the outcome of the probe call. -/
def verifyConnection (c : GoogleDocsClient) (timestamp : String)
    (listResult : Except ApiError ListFilesResponse) : VerifyResult :=
  match listResult with
  | .ok resp =>
      let d : ConnDetails :=
        { authType := c.getAuthType, apiVersion := "v1",
          documentCount := jsOrNat (resp.files.map List.length) 0 }
      { connected := true, projectId := c.projectId, timestamp, details := some d }
  | .error e =>
      let err : ConnError :=
        { message := e.message,
          code := jsOrCode e.code (.str "UNKNOWN_ERROR"),
          details := jsOr e.details e.stack }
      { connected := false, projectId := c.projectId, timestamp, error := some err }

/-! ### The MCP tool dispatcher (`setupToolHandlers` in `src/index.ts`) -/

/-- An `McpError` thrown by the dispatcher (`code` is the JSON-RPC error
code; `MethodNotFound` is `-32601`). -/
structure McpThrow where
  code : Int
  reason : String
deriving DecidableEq, Repr

/-- The JSON-RPC `MethodNotFound` error code. -/
def methodNotFound : Int := -32601

/-- The `Error.message` of a thrown `McpError`, as set by the MCP SDK
constructor. -/
def McpThrow.jsMessage (e : McpThrow) : String :=
  "MCP error " ++ toString e.code ++ ": " ++ e.reason

/-- One item of a tool reply's `content` array. -/
structure ContentItem where
  contentType : String
  text : String
deriving DecidableEq, Repr

/-- The reply object a `CallTool` handler returns to the SDK
(`isError` is absent, i.e. falsy, on success replies). -/
structure CallToolReply where
  content : List ContentItem
  isError : Bool := false
deriving DecidableEq, Repr

/-- The nine registered tool names. -/
def registeredToolNames : List String :=
  ["google_docs_create", "google_docs_get", "google_docs_update",
   "google_docs_list", "google_docs_delete", "google_docs_export",
   "google_docs_share", "google_docs_search", "google_docs_verify_connection"]

/-- A success reply: one text item carrying the stringified result. -/
def textReply (s : String) : CallToolReply :=
  { content := [{ contentType := "text", text := s }] }

/-- The `switch` inside the `CallTool` handler's `try` block.  `run t`
abstracts `JSON.stringify(result, null, 2)` for the client operation bound
to tool `t` (each operation is total, §C5, so `run` is total); the
`default` case throws `McpError(MethodNotFound, ...)`. -/
def dispatchSwitch (run : String → String) (name : String) :
    Except McpThrow CallToolReply :=
  match name with
  | "google_docs_create" => .ok (textReply (run "google_docs_create"))
  | "google_docs_get" => .ok (textReply (run "google_docs_get"))
  | "google_docs_update" => .ok (textReply (run "google_docs_update"))
  | "google_docs_list" => .ok (textReply (run "google_docs_list"))
  | "google_docs_delete" => .ok (textReply (run "google_docs_delete"))
  | "google_docs_export" => .ok (textReply (run "google_docs_export"))
  | "google_docs_share" => .ok (textReply (run "google_docs_share"))
  | "google_docs_search" => .ok (textReply (run "google_docs_search"))
  | "google_docs_verify_connection" => .ok (textReply (run "google_docs_verify_connection"))
  | other => .error { code := methodNotFound, reason := "Unknown tool: " ++ other }

/-- The whole `CallTool` handler: the `try`/`catch` wraps the `switch`, so
anything thrown inside — including the `McpError` thrown by the `default`
case — is converted into an `isError:true` text reply. -/
def handleCallTool (run : String → String) (name : String) : CallToolReply :=
  match dispatchSwitch run name with
  | .ok reply => reply
  | .error e =>
      { content := [{ contentType := "text", text := "Google Docs API error: " ++ e.jsMessage }],
        isError := true }

/-! ### The connectivity-check CLI (`main` in `src/test-connection.ts`) -/

/-- The three shapes of failure output `main` can print. -/
inductive CliMessage where
  | permissionHint
  | genericFailure
  | fatalError (msg : String)
deriving DecidableEq, Repr

/-- The observable outcome of the CLI: its exit code and failure message. -/
structure CliOutcome where
  exitCode : Nat
  message : Option CliMessage
deriving DecidableEq, Repr

/-- The part of `main` up to client construction: resolve the six inputs
(flag over environment), run the CLI's own credential/project checks, then
construct the `GoogleDocsClient`; any throw is captured as its message. -/
def mainSetup (values : ClientOptions) (env : Env) (fsExists : String → Bool) :
    Except String GoogleDocsClient :=
  let serviceAccountPath := jsOr values.serviceAccountPath env.GOOGLE_APPLICATION_CREDENTIALS
  let apiKey := jsOr values.apiKey env.GOOGLE_API_KEY
  let projectId := jsOr values.projectId env.GOOGLE_CLOUD_PROJECT_ID
  let oauthClientId := jsOr values.oauthClientId env.GOOGLE_OAUTH_CLIENT_ID
  let oauthClientSecret := jsOr values.oauthClientSecret env.GOOGLE_OAUTH_CLIENT_SECRET
  let oauthRefreshToken := jsOr values.oauthRefreshToken env.GOOGLE_OAUTH_REFRESH_TOKEN
  if ¬ (truthy serviceAccountPath ∨ truthy apiKey ∨
        (truthy oauthClientId ∧ truthy oauthClientSecret ∧ truthy oauthRefreshToken)) then
    .error "Either GOOGLE_APPLICATION_CREDENTIALS, GOOGLE_API_KEY, or OAuth credentials are required"
  else if ¬ truthy projectId then
    .error "GOOGLE_CLOUD_PROJECT_ID environment variable is required"
  else
    match mkClient
        { serviceAccountPath := serviceAccountPath, apiKey := apiKey,
          projectId := projectId, oauthClientId := oauthClientId,
          oauthClientSecret := oauthClientSecret,
          oauthRefreshToken := oauthRefreshToken } env fsExists with
    | .error e => .error e.message
    | .ok c => .ok c

/-- `main`: on a construction throw, print the error and exit 1; otherwise
run `verifyConnection` and exit 0 when `connected`, else exit 1 — with the
permission hint exactly when `result.error?.code === 403` (a strict
comparison against the number 403). -/
def testConnectionMain (values : ClientOptions) (env : Env) (fsExists : String → Bool)
    (timestamp : String) (listResult : Except ApiError ListFilesResponse) : CliOutcome :=
  match mainSetup values env fsExists with
  | .error msg => { exitCode := 1, message := some (.fatalError msg) }
  | .ok c =>
      let result := verifyConnection c timestamp listResult
      if result.connected then { exitCode := 0, message := none }
      else if result.error.map ConnError.code = some (.num 403) then
        { exitCode := 1, message := some .permissionHint }
      else
        { exitCode := 1, message := some .genericFailure }

/-! ### Helper lemmas -/

theorem truthy_getD (o : Option String) : truthy o = true ↔ o.getD "" ≠ "" := by
  cases o <;> simp [truthy]

theorem jsOrNat_zero (o : Option Nat) : jsOrNat o 0 = o.getD 0 := by
  cases o with
  | none => rfl
  | some n => by_cases h : n = 0 <;> simp [jsOrNat, h]

/-- Every successfully constructed client carries one of the three real
credential strategies (the `noAuth` fallback is unreachable thanks to the
no-credentials guard). -/
theorem mkClient_ok_auth (opts : ClientOptions) (env : Env) (fsExists : String → Bool)
    (c : GoogleDocsClient) (h : mkClient opts env fsExists = .ok c) :
    (∃ k, c.auth = .apiKey k) ∨ (∃ p, c.auth = .serviceAccount p) ∨
      (∃ a b r, c.auth = .oauth2 a b r) := by
  simp only [mkClient] at h
  split at h
  · exact absurd h (by simp)
  · split at h
    · exact absurd h (by simp)
    · split at h
      · cases h; exact Or.inl ⟨_, rfl⟩
      · split at h
        · split at h
          · exact absurd h (by simp)
          · cases h; exact Or.inr (Or.inl ⟨_, rfl⟩)
        · split at h
          · cases h; exact Or.inr (Or.inr ⟨_, _, _, rfl⟩)
          · rename_i hcred hk hs htriple
            exact absurd (by tauto : truthy (jsOr opts.apiKey env.GOOGLE_API_KEY) = true ∨
              truthy (jsOr opts.serviceAccountPath env.GOOGLE_APPLICATION_CREDENTIALS) = true ∨
              (truthy (jsOr opts.oauthClientId env.GOOGLE_OAUTH_CLIENT_ID) = true ∧
               truthy (jsOr opts.oauthClientSecret env.GOOGLE_OAUTH_CLIENT_SECRET) = true ∧
               truthy (jsOr opts.oauthRefreshToken env.GOOGLE_OAUTH_REFRESH_TOKEN) = true))
              (by tauto)

/-! ### Claim theorems -/

/-- C1: evaluating the dispatcher at an unregistered tool name.  The
`default` case of the `switch` throws `McpError(MethodNotFound, ...)`, but
that throw happens inside the handler's own `try`, so the catch-all converts
it into an ordinary operation error payload with `isError:true` — the caller
never sees a protocol-level method-not-found error. -/
theorem unknownTool_returns_isError_payload :
    handleCallTool (fun _ => "") "no_such_tool" =
      { content := [{ contentType := "text", text := "Google Docs API error: MCP error -32601: Unknown tool: no_such_tool" }],
        isError := true } := by
  rfl

/-- C2 counterexample: `verifyConnection` failing with an error that has no
`details` field but a stack trace returns that raw stack trace to the caller
as `error.details`. -/
theorem verify_error_details_is_stack :
    (verifyConnection { projectId := "p", auth := .apiKey "k" } "t"
        (.error { message := "boom", code := some (.num 500), stack := some "RAW_STACK_TRACE" })).error =
      some { message := "boom", code := .num 500, details := some "RAW_STACK_TRACE" } := by
  rfl

/-- C2 amended: the failure descriptor of `verifyConnection` carries exactly
a message, a code and optional details — where `details` is the thrown
error's `details` field when that is truthy and otherwise falls back to the
error's raw stack trace. -/
theorem verify_error_descriptor_shape (c : GoogleDocsClient) (ts : String) (e : ApiError) :
    (verifyConnection c ts (.error e)).error =
      some { message := e.message, code := jsOrCode e.code (.str "UNKNOWN_ERROR"),
             details := jsOr e.details e.stack } ∧
    (truthy e.details = true →
      (verifyConnection c ts (.error e)).error.map ConnError.details = some e.details) ∧
    (truthy e.details = false →
      (verifyConnection c ts (.error e)).error.map ConnError.details = some e.stack) := by
  refine ⟨rfl, ?_, ?_⟩ <;> intro h <;> simp [verifyConnection, jsOr, h]

/-- C2 amended, witness: a concrete failing error without `details` whose
descriptor's `details` is the stack trace. -/
theorem verify_error_descriptor_shape_witness :
    (verifyConnection { projectId := "p", auth := .apiKey "k" } "t"
        (.error { message := "m", stack := some "S" })).error.map ConnError.details =
      some (some "S") :=
  (verify_error_descriptor_shape { projectId := "p", auth := .apiKey "k" } "t"
    { message := "m", stack := some "S" }).2.2 (by decide)

/-- C7 counterexample: a construction that supplies a service-account path
to a nonexistent file *and* an API key succeeds (API-key branch wins), so
the claim's unconditional failure does not hold. -/
theorem sa_missing_file_with_apiKey_succeeds :
    mkClient { apiKey := some "k", serviceAccountPath := some "/missing/sa.json",
               projectId := some "p" } {} (fun _ => false) =
      .ok { projectId := "p", auth := .apiKey "k" } := by
  rfl

/-- C7 amended: when a service-account key-file path is supplied (argument
or environment), no API key is supplied, a project id is resolvable, and no
file exists at that path, construction fails with a configuration error
whose message references that path. -/
theorem sa_missing_file_fails (opts : ClientOptions) (env : Env) (fsExists : String → Bool)
    (hp : truthy (jsOr opts.projectId env.GOOGLE_CLOUD_PROJECT_ID) = true)
    (hk : truthy (jsOr opts.apiKey env.GOOGLE_API_KEY) = false)
    (hs : truthy (jsOr opts.serviceAccountPath env.GOOGLE_APPLICATION_CREDENTIALS) = true)
    (hf : fsExists ((jsOr opts.serviceAccountPath env.GOOGLE_APPLICATION_CREDENTIALS).getD "") = false) :
    mkClient opts env fsExists =
      .error (.serviceAccountFileNotFound
        ((jsOr opts.serviceAccountPath env.GOOGLE_APPLICATION_CREDENTIALS).getD "")) ∧
    (ConfigError.serviceAccountFileNotFound
        ((jsOr opts.serviceAccountPath env.GOOGLE_APPLICATION_CREDENTIALS).getD "")).message =
      "Service account key file not found at: " ++
        ((jsOr opts.serviceAccountPath env.GOOGLE_APPLICATION_CREDENTIALS).getD "") := by
  refine ⟨?_, rfl⟩
  have hp' := (truthy_getD _).mp hp
  simp only [mkClient]
  rw [if_neg hp']
  rw [if_neg (by simp [hk, hs])]
  rw [if_neg (by simp [hk])]
  rw [if_pos hs]
  rw [if_pos (by simp [hf])]

/-- C7 amended, witness. -/
theorem sa_missing_file_fails_witness :
    mkClient { serviceAccountPath := some "/missing/sa.json", projectId := some "p" } {}
        (fun _ => false) =
      .error (.serviceAccountFileNotFound "/missing/sa.json") :=
  (sa_missing_file_fails { serviceAccountPath := some "/missing/sa.json", projectId := some "p" }
    {} (fun _ => false) rfl rfl rfl rfl).1

/-- C8: the search filter sent by `searchDocuments` is exactly the
document-mime-type condition conjoined with name/fullText `contains`
clauses, with the raw query spliced in verbatim twice (so the filter length
grows by exactly twice the query length — no escaping expands it), and
`pageSize` defaults to 10 when absent. -/
theorem search_filter_raw_interpolation (query : String) (pageSize : Option Nat)
    (pageToken : Option String) :
    (searchDocumentsCall query pageSize pageToken).q =
      docMimeFilter ++ " and (name contains " ++ sq ++ query ++ sq ++
        " or fullText contains " ++ sq ++ query ++ sq ++ ")" ∧
    (searchDocumentsCall query pageSize pageToken).pageSize = some (pageSize.getD 10) ∧
    (searchFilter query).length = 2 * query.length + (searchFilter "").length := by
  refine ⟨rfl, rfl, ?_⟩
  simp [searchFilter, String.length_append]
  omega

/-- C10: `createDocument` issues its content batch-update only when the
content is a truthy (non-empty) string and the Drive create call returned a
truthy document id; empty-string content behaves exactly like absent
content, issuing no insert. -/
theorem create_empty_content_no_insert (title : String)
    (cr : Except ApiError DriveFile) (br : List Request → Except ApiError Unit)
    (gr : String → Except ApiError DocData) :
    createDocument title (some "") cr br gr = createDocument title none cr br gr ∧
    (∀ docId, createDocumentBatches (some "") docId = []) ∧
    (∀ docId, createDocumentBatches none docId = []) ∧
    (∀ content docId, content ≠ "" → truthy docId = true →
      createDocumentBatches (some content) docId = [convertContentToRequests content]) ∧
    (∀ content docId, (truthy content && truthy docId) = false →
      createDocumentBatches content docId = []) := by
  refine ⟨?_, ?_, ?_, ?_, ?_⟩
  · cases cr with
    | error e => rfl
    | ok drive => simp [createDocument, createDocumentBody, truthy]
  · intro docId; simp [createDocumentBatches, truthy]
  · intro docId; simp [createDocumentBatches, truthy]
  · intro content docId hc hd
    cases docId with
    | none => simp [truthy] at hd
    | some s =>
        simp only [truthy, ne_eq, decide_not] at hd
        simp [createDocumentBatches, truthy, hc, hd, convertContentToRequests]
  · intro content docId h; simp [createDocumentBatches, h]

/-- C10 witness: nonempty content and a present id do issue the insert. -/
theorem create_empty_content_no_insert_witness :
    createDocumentBatches (some "hello") (some "docid") = [convertContentToRequests "hello"] :=
  (create_empty_content_no_insert "T" (.ok { id := some "docid" }) (fun _ => .ok ())
    (fun _ => .ok {})).2.2.2.1 "hello" (some "docid") (by decide) (by decide)

/-- C3: `updateDocument` with `replaceAll` issues exactly one
delete-content-range over `[1, lastBlock.endIndex − 1]` followed by the
insert at index 1 when the fetched body has more than one content block;
with exactly one block no delete is issued; and when every remote call
succeeds the operation returns the re-fetched final document. -/
theorem update_replaceAll_requests (currentDoc finalDoc : DocData) (content : String)
    (l : List StructuralElement)
    (hb : currentDoc.body.bind DocBody.content = some l) :
    (∀ e k, l.length > 1 → l.getLast? = some e → e.endIndex = some k → k ≠ 0 →
      updateDocumentCalls currentDoc content true =
        [[.deleteContentRange 1 (k - 1)], [.insertText 1 content]]) ∧
    (l.length = 1 → updateDocumentCalls currentDoc content true = [[.insertText 1 content]]) ∧
    (∀ br : List Request → Except ApiError Unit, (∀ reqs, br reqs = .ok ()) →
      updateDocument content true (.ok currentDoc) br (.ok finalDoc) = .ok finalDoc) := by
  obtain ⟨ob⟩ := currentDoc
  cases ob with
  | none => simp at hb
  | some b =>
      obtain ⟨oc⟩ := b
      cases oc with
      | none => simp at hb
      | some l' =>
          simp only [Option.bind_some] at hb
          cases hb
          refine ⟨?_, ?_, ?_⟩
          · intro e k hlen hlast hend hk
            simp [updateDocumentCalls, deleteBatchFor, hlen, hlast, hend, jsOrNat, hk,
              convertContentToRequests]
          · intro hlen
            simp [updateDocumentCalls, deleteBatchFor, hlen, convertContentToRequests]
          · intro br hbr
            cases hdel : deleteBatchFor { body := some { content := some l } } with
            | none =>
                simp [updateDocument, updateDocumentBody, hdel, hbr, convertContentToRequests,
                  bind, Except.bind, pure, Except.pure]
            | some reqs =>
                simp [updateDocument, updateDocumentBody, hdel, hbr, convertContentToRequests,
                  bind, Except.bind, pure, Except.pure]

/-- C3 witness: a two-block body with last `endIndex` 10 yields the delete
over `[1, 9]` then the insert; the final fetch is returned. -/
theorem update_replaceAll_requests_witness :
    updateDocumentCalls { body := some { content := some [{ endIndex := some 5 }, { endIndex := some 10 }] } }
        "hi" true =
      [[.deleteContentRange 1 9], [.insertText 1 "hi"]] :=
  (update_replaceAll_requests
      { body := some { content := some [{ endIndex := some 5 }, { endIndex := some 10 }] } }
      {} "hi" [{ endIndex := some 5 }, { endIndex := some 10 }] rfl).1
    { endIndex := some 10 } 10 (by decide) rfl rfl (by decide)

/-- C5: none of the nine operations lets a remote failure escape: each
returns either its success payload or its error shape (`errorResult` for the
plain-object operations, `failure` i.e. `success:false` for delete/share,
and `connected:false` with an error object for `verifyConnection`), the
error shape carrying the thrown error's message. -/
theorem ops_never_throw :
    (∀ title content cr br gr, (∃ p, createDocument title content cr br gr = .success p) ∨
      (∃ m, createDocument title content cr br gr = .errorResult m)) ∧
    (∀ title content br gr e, createDocument title content (.error e) br gr = .errorResult e.message) ∧
    (∀ r, (∃ d, getDocument r = .ok d) ∨ (∃ m, getDocument r = .errorResult m)) ∧
    (∀ e, getDocument (.error e) = .errorResult e.message) ∧
    (∀ content ra g1 br g2, (∃ d, updateDocument content ra g1 br g2 = .ok d) ∨
      (∃ m, updateDocument content ra g1 br g2 = .errorResult m)) ∧
    (∀ r, (∃ fs tok, listDocuments r = .ok fs tok) ∨ (∃ m, listDocuments r = .errorResult m)) ∧
    (∀ e, listDocuments (.error e) = .errorResult e.message) ∧
    (∀ documentId r, (∃ m, deleteDocument documentId r = .ok documentId m) ∨
      (∃ m, deleteDocument documentId r = .failure m)) ∧
    (∀ documentId e, deleteDocument documentId (.error e) = .failure e.message) ∧
    (∀ documentId mt r, (∃ d m s, exportDocument documentId mt r = .ok d m s) ∨
      (∃ m, exportDocument documentId mt r = .errorResult m)) ∧
    (∀ documentId mt e, exportDocument documentId mt (.error e) = .errorResult e.message) ∧
    (∀ documentId r, (∃ p, shareDocument documentId r = .ok documentId p) ∨
      (∃ m, shareDocument documentId r = .failure m)) ∧
    (∀ documentId e, shareDocument documentId (.error e) = .failure e.message) ∧
    (∀ r, (∃ fs tok, searchDocuments r = .ok fs tok) ∨ (∃ m, searchDocuments r = .errorResult m)) ∧
    (∀ e, searchDocuments (.error e) = .errorResult e.message) ∧
    (∀ c ts lr, (verifyConnection c ts lr).connected = true ∨
      ((verifyConnection c ts lr).connected = false ∧
        ∃ err, (verifyConnection c ts lr).error = some err)) := by
  refine ⟨?_, ?_, ?_, ?_, ?_, ?_, ?_, ?_, ?_, ?_, ?_, ?_, ?_, ?_, ?_, ?_⟩
  · intro title content cr br gr
    cases h : createDocumentBody title content cr br gr with
    | ok p => exact Or.inl ⟨p, by simp [createDocument, h]⟩
    | error e => exact Or.inr ⟨e.message, by simp [createDocument, h]⟩
  · intro title content br gr e; rfl
  · intro r; cases r with
    | ok d => exact Or.inl ⟨d, rfl⟩
    | error e => exact Or.inr ⟨e.message, rfl⟩
  · intro e; rfl
  · intro content ra g1 br g2
    cases h : updateDocumentBody content ra g1 br g2 with
    | ok d => exact Or.inl ⟨d, by simp [updateDocument, h]⟩
    | error e => exact Or.inr ⟨e.message, by simp [updateDocument, h]⟩
  · intro r; cases r with
    | ok d => exact Or.inl ⟨d.files, d.nextPageToken, rfl⟩
    | error e => exact Or.inr ⟨e.message, rfl⟩
  · intro e; rfl
  · intro documentId r; cases r with
    | ok u => exact Or.inl ⟨_, rfl⟩
    | error e => exact Or.inr ⟨e.message, rfl⟩
  · intro documentId e; rfl
  · intro documentId mt r; cases r with
    | ok bytes => exact Or.inl ⟨_, _, _, rfl⟩
    | error e => exact Or.inr ⟨e.message, rfl⟩
  · intro documentId mt e; rfl
  · intro documentId r; cases r with
    | ok p => exact Or.inl ⟨p, rfl⟩
    | error e => exact Or.inr ⟨e.message, rfl⟩
  · intro documentId e; rfl
  · intro r; cases r with
    | ok d => exact Or.inl ⟨d.files, d.nextPageToken, rfl⟩
    | error e => exact Or.inr ⟨e.message, rfl⟩
  · intro e; rfl
  · intro c ts lr; cases lr with
    | ok resp => exact Or.inl rfl
    | error e => exact Or.inr ⟨rfl, _, rfl⟩

/-- C4: credential resolution is first-match-wins — API key beats every
other credential, then service account (with its file check), then the
complete OAuth2 triple; with no usable credential set construction fails
with the configuration error, before any remote call (the constructor takes
no remote oracle at all). -/
theorem credential_resolution_order (opts : ClientOptions) (env : Env) (fsExists : String → Bool)
    (hp : truthy (jsOr opts.projectId env.GOOGLE_CLOUD_PROJECT_ID) = true) :
    (truthy (jsOr opts.apiKey env.GOOGLE_API_KEY) = true →
      mkClient opts env fsExists = .ok
        { projectId := (jsOr opts.projectId env.GOOGLE_CLOUD_PROJECT_ID).getD "",
          auth := .apiKey ((jsOr opts.apiKey env.GOOGLE_API_KEY).getD "") }) ∧
    (truthy (jsOr opts.apiKey env.GOOGLE_API_KEY) = false →
      truthy (jsOr opts.serviceAccountPath env.GOOGLE_APPLICATION_CREDENTIALS) = true →
      fsExists ((jsOr opts.serviceAccountPath env.GOOGLE_APPLICATION_CREDENTIALS).getD "") = true →
      mkClient opts env fsExists = .ok
        { projectId := (jsOr opts.projectId env.GOOGLE_CLOUD_PROJECT_ID).getD "",
          auth := .serviceAccount ((jsOr opts.serviceAccountPath env.GOOGLE_APPLICATION_CREDENTIALS).getD "") }) ∧
    (truthy (jsOr opts.apiKey env.GOOGLE_API_KEY) = false →
      truthy (jsOr opts.serviceAccountPath env.GOOGLE_APPLICATION_CREDENTIALS) = false →
      truthy (jsOr opts.oauthClientId env.GOOGLE_OAUTH_CLIENT_ID) = true →
      truthy (jsOr opts.oauthClientSecret env.GOOGLE_OAUTH_CLIENT_SECRET) = true →
      truthy (jsOr opts.oauthRefreshToken env.GOOGLE_OAUTH_REFRESH_TOKEN) = true →
      mkClient opts env fsExists = .ok
        { projectId := (jsOr opts.projectId env.GOOGLE_CLOUD_PROJECT_ID).getD "",
          auth := .oauth2 ((jsOr opts.oauthClientId env.GOOGLE_OAUTH_CLIENT_ID).getD "")
            ((jsOr opts.oauthClientSecret env.GOOGLE_OAUTH_CLIENT_SECRET).getD "")
            ((jsOr opts.oauthRefreshToken env.GOOGLE_OAUTH_REFRESH_TOKEN).getD "") }) ∧
    (truthy (jsOr opts.apiKey env.GOOGLE_API_KEY) = false →
      truthy (jsOr opts.serviceAccountPath env.GOOGLE_APPLICATION_CREDENTIALS) = false →
      ¬ (truthy (jsOr opts.oauthClientId env.GOOGLE_OAUTH_CLIENT_ID) = true ∧
         truthy (jsOr opts.oauthClientSecret env.GOOGLE_OAUTH_CLIENT_SECRET) = true ∧
         truthy (jsOr opts.oauthRefreshToken env.GOOGLE_OAUTH_REFRESH_TOKEN) = true) →
      mkClient opts env fsExists = .error .noCredentials) := by
  have hp' := (truthy_getD _).mp hp
  refine ⟨?_, ?_, ?_, ?_⟩
  · intro hk
    simp only [mkClient]
    rw [if_neg hp']
    rw [if_neg (by simp [hk])]
    rw [if_pos hk]
  · intro hk hs hf
    simp only [mkClient]
    rw [if_neg hp']
    rw [if_neg (by simp [hs])]
    rw [if_neg (by simp [hk])]
    rw [if_pos hs]
    rw [if_neg (by simp [hf])]
  · intro hk hs h1 h2 h3
    simp only [mkClient]
    rw [if_neg hp']
    rw [if_neg (by simp [h1, h2, h3])]
    rw [if_neg (by simp [hk])]
    rw [if_neg (by simp [hs])]
    rw [if_pos ⟨h1, h2, h3⟩]
  · intro hk hs ho
    simp only [mkClient]
    rw [if_neg hp']
    rw [if_pos (by
      rintro (h | h | ⟨h1, h2, h3⟩)
      · rw [hk] at h; cases h
      · rw [hs] at h; cases h
      · exact ho ⟨h1, h2, h3⟩)]

/-- C4 witness: with every credential kind supplied at once, the API-key
branch wins. -/
theorem credential_resolution_order_witness :
    mkClient { apiKey := some "k", serviceAccountPath := some "/sa.json",
               projectId := some "p", oauthClientId := some "a",
               oauthClientSecret := some "b", oauthRefreshToken := some "c" } {}
        (fun _ => true) =
      .ok { projectId := "p", auth := .apiKey "k" } :=
  (credential_resolution_order { apiKey := some "k", serviceAccountPath := some "/sa.json",
                                 projectId := some "p", oauthClientId := some "a",
                                 oauthClientSecret := some "b", oauthRefreshToken := some "c" } {}
    (fun _ => true) rfl).1 rfl

/-- C6: on a successful single-item list probe, `verifyConnection` reports
`connected:true` with the project id, the timestamp, `apiVersion` v1,
`documentCount` equal to the number of files the probe returned, and
`authType` naming the credential branch selected at construction. -/
theorem verify_success_shape (opts : ClientOptions) (env : Env) (fsExists : String → Bool)
    (ts : String) (resp : ListFilesResponse) (c : GoogleDocsClient)
    (hc : mkClient opts env fsExists = .ok c) :
    (verifyConnection c ts (.ok resp)).connected = true ∧
    (verifyConnection c ts (.ok resp)).projectId = c.projectId ∧
    (verifyConnection c ts (.ok resp)).timestamp = ts ∧
    (verifyConnection c ts (.ok resp)).error = none ∧
    (verifyConnection c ts (.ok resp)).details =
      some { authType := c.getAuthType, apiVersion := "v1", documentCount := (resp.files.map List.length).getD 0 } ∧
    (c.getAuthType = "API Key" ∨ c.getAuthType = "Service Account" ∨ c.getAuthType = "OAuth2") ∧
    (∀ k, c.auth = .apiKey k → c.getAuthType = "API Key") ∧
    (∀ p, c.auth = .serviceAccount p → c.getAuthType = "Service Account") ∧
    (∀ a b r, c.auth = .oauth2 a b r → c.getAuthType = "OAuth2") ∧
    verifyConnectionCall.pageSize = some 1 := by
  refine ⟨rfl, rfl, rfl, rfl, ?_, ?_, ?_, ?_, ?_, rfl⟩
  · simp [verifyConnection, jsOrNat_zero]
  · rcases mkClient_ok_auth opts env fsExists c hc with ⟨k, hk⟩ | ⟨p, hs⟩ | ⟨a, b, r, ho⟩
    · exact Or.inl (by simp [GoogleDocsClient.getAuthType, hk])
    · exact Or.inr (Or.inl (by simp [GoogleDocsClient.getAuthType, hs]))
    · exact Or.inr (Or.inr (by simp [GoogleDocsClient.getAuthType, ho]))
  · intro k hk; simp [GoogleDocsClient.getAuthType, hk]
  · intro p hs; simp [GoogleDocsClient.getAuthType, hs]
  · intro a b r ho; simp [GoogleDocsClient.getAuthType, ho]

/-- C6 witness: an API-key client's probe with one file reports
`connected:true` and `documentCount` 1. -/
theorem verify_success_shape_witness :
    (verifyConnection { projectId := "p", auth := .apiKey "k" } "t"
        (.ok { files := some [{ id := some "x", name := some "n" }] })).details =
      some { authType := "API Key", apiVersion := "v1", documentCount := 1 } := by
  have h := (verify_success_shape { apiKey := some "k", projectId := some "p" } {}
    (fun _ => true) "t" { files := some [{ id := some "x", name := some "n" }] }
    { projectId := "p", auth := .apiKey "k" } rfl).2.2.2.2.1
  simpa using h

/-- C9: the connectivity-check CLI exits 0 exactly when construction
succeeded and `verifyConnection` reported `connected:true`; on a
not-connected result it exits 1 with the permission hint exactly when
`error.code` strictly equals the number 403, else the generic failure
message; a construction throw also exits 1. -/
theorem cli_exit_codes (values : ClientOptions) (env : Env) (fsExists : String → Bool)
    (ts : String) (lr : Except ApiError ListFilesResponse) :
    ((testConnectionMain values env fsExists ts lr).exitCode = 0 ↔
      ∃ c, mainSetup values env fsExists = .ok c ∧ (verifyConnection c ts lr).connected = true) ∧
    (∀ c, mainSetup values env fsExists = .ok c →
      (verifyConnection c ts lr).connected = false →
      ((verifyConnection c ts lr).error.map ConnError.code = some (.num 403) →
        testConnectionMain values env fsExists ts lr =
          { exitCode := 1, message := some .permissionHint }) ∧
      ((verifyConnection c ts lr).error.map ConnError.code ≠ some (.num 403) →
        testConnectionMain values env fsExists ts lr =
          { exitCode := 1, message := some .genericFailure })) ∧
    (∀ msg, mainSetup values env fsExists = .error msg →
      testConnectionMain values env fsExists ts lr =
        { exitCode := 1, message := some (.fatalError msg) }) := by
  cases hms : mainSetup values env fsExists with
  | error msg =>
      refine ⟨?_, ?_, ?_⟩
      · simp [testConnectionMain, hms]
      · intro c hc; exact absurd hc (by simp)
      · intro m hm; cases hm; simp [testConnectionMain, hms]
  | ok c =>
      refine ⟨?_, ?_, ?_⟩
      · by_cases hr : (verifyConnection c ts lr).connected
        · simp [testConnectionMain, hms, hr]
        · by_cases h403 : (verifyConnection c ts lr).error.map ConnError.code = some (.num 403) <;>
            simp [testConnectionMain, hms, hr, h403]
      · intro c' hc' hr
        cases hc'
        constructor
        · intro h403; simp [testConnectionMain, hms, hr, h403]
        · intro h403; simp [testConnectionMain, hms, hr, h403]
      · intro m hm; exact absurd hm (by simp)

/-- C9 witness: a 403-coded failure exits 1 with the permission hint. -/
theorem cli_exit_codes_witness :
    testConnectionMain { apiKey := some "k", projectId := some "p" } {} (fun _ => false) "t"
        (.error { message := "denied", code := some (.num 403) }) =
      { exitCode := 1, message := some .permissionHint } :=
  ((cli_exit_codes { apiKey := some "k", projectId := some "p" } {} (fun _ => false) "t"
      (.error { message := "denied", code := some (.num 403) })).2.1
    { projectId := "p", auth := .apiKey "k" } rfl rfl).1 rfl

end GDocs
